import Mathlib

/-!
# Verification of the webnlg_corpus in-memory store and query layer

Shallow embedding of `webnlg_corpus/webnlg.py`: the record builder
(`make_dict_from_triple`, `make_dict_from_entity`, the lexicalization and
entity-map construction of `read_webnlg_file`), the corpus view
(`WebNLGCorpus.subset`, `WebNLGCorpus.sample`) and the tabular projection
(`WebNLGCorpus.as_pandas`).

Python dicts are embedded as insertion-ordered association lists; fallible
dict subscripts, `random.choice` on an empty sequence, `reduce` over an
empty iterable and explicit `raise` statements are embedded in `Except`
with an error type mirroring the Python exceptions that the source can
raise.
-/

/-- Python exceptions the embedded code can raise.  The spec's abstract
taxonomy maps onto these: `NoFilterSpecified` and `UnknownRelease` are
`ValueError`, `MissingKey` is `KeyError`, `EmptySelection` is the
`IndexError` raised by `random.choice` on an empty sequence, and
`typeError` is a `TypeError` such as subscripting a `set`. -/
inductive PyErr where
  | typeError : PyErr
  | keyError : String → PyErr
  | indexError : PyErr
  | valueError : String → PyErr
  deriving DecidableEq, Repr

/-- `d[k]` on a Python dict embedded as an association list of `String`
values: the value if the key is present, `KeyError` otherwise. -/
def dget (d : List (String × String)) (k : String) : Except PyErr String :=
  match d.lookup k with
  | some v => .ok v
  | none => .error (.keyError k)

/-- `d[k]` on a Python dict whose values may be `None`
(embedded as `Option String`). -/
def dgetO (d : List (String × Option String)) (k : String) :
    Except PyErr (Option String) :=
  match d.lookup k with
  | some v => .ok v
  | none => .error (.keyError k)

/-- `TRIPLE_KEYS` from the source. -/
def TRIPLE_KEYS : List String := ["subject", "predicate", "object"]

/-- Python `str.split` with the one-character separator `'|'`, modelled
from its documented semantics on the character list: every occurrence of
the separator delimits a field, empty fields are kept, and the result
always has at least one field (splitting the empty string yields one
empty field). -/
def pySplitPipe : List Char → List (List Char)
  | [] => [[]]
  | c :: rest =>
    match pySplitPipe rest with
    | [] => [[c]]
    | f :: fs => if c = '|' then [] :: f :: fs else (c :: f) :: fs

/-- `triple_text.split('|')` on strings. -/
def pySplitOnPipe (s : String) : List String :=
  (pySplitPipe s.data).map List.asString

/-- Python `str.strip()` with no argument, modelled from its documented
semantics: remove leading and trailing whitespace. -/
def pyStrip (s : String) : String :=
  (((s.data.dropWhile Char.isWhitespace).reverse.dropWhile
      Char.isWhitespace).reverse).asString

/-- `make_dict_from_triple`: the dict starts as `{'text': triple_text}`,
then `zip(TRIPLE_KEYS, triple_text.split('|'))` assigns up to three
stripped parts to `subject`, `predicate`, `object` in order; `zip`
truncates at the shorter sequence, so extra parts are dropped and missing
keys are never inserted. -/
def make_dict_from_triple (triple_text : String) : List (String × String) :=
  ("text", triple_text) ::
    (TRIPLE_KEYS.zip (pySplitOnPipe triple_text)).map
      (fun p => (p.1, pyStrip p.2))

/-!
## The v1.2 entity map and delexicalization

`make_dict_from_entity` in the source is a generator function (its body
uses `yield`), so calling it returns an unevaluated generator object.
The source then builds

    entry_dict["entity_map"] = { make_dict_from_entity(entity.text)
                                 for entity in ... }

which is a set comprehension: a Python `set` whose elements are generator
objects.  We embed just enough of Python's dynamic values to evaluate the
delexicalization code on this value.
-/

/-- A Python runtime value as needed by the v1.2 entity-map code: a
string, a generator object returned by `make_dict_from_entity(text)`
(its body unevaluated), or a `set` of such generator objects, each
identified by the text it was applied to (elements kept in insertion
order; hashing is irrelevant to the claims — the only set this program
builds is a set of generators). -/
inductive PyVal where
  | str : String → PyVal
  | gen : String → PyVal
  | setOfGens : List String → PyVal
  deriving DecidableEq, Repr

/-- `v[k]` for a string key `k`: only dicts support string subscripts;
a `set`, a generator or a `str` raises `TypeError`.  (No dict case is
needed: the value the source subscripts is never a dict.) -/
def pySubscript (v : PyVal) (_k : String) : Except PyErr PyVal :=
  match v with
  | .str _ => .error .typeError
  | .gen _ => .error .typeError
  | .setOfGens _ => .error .typeError

/-- The source's `entry_dict["entity_map"]` for a v1.2 file: the set
comprehension `{make_dict_from_entity(entity.text) for entity in ...}`,
a set of generator objects. -/
def build_entity_map (entity_texts : List String) : PyVal :=
  .setOfGens entity_texts

/-- One element of the source's `delexicalized_mtriples` comprehension:
the dict literal `{'subject': entity_map[d['subject']], 'predicate':
d['predicate'], 'object': entity_map[d['object']]}`, with the source's
evaluation order. -/
def delex_one (entity_map : PyVal) (d : List (String × String)) :
    Except PyErr (List (String × PyVal)) :=
  match dget d "subject" with
  | .error err => .error err
  | .ok dsubj =>
    match pySubscript entity_map dsubj with
    | .error err => .error err
    | .ok subj =>
      match dget d "predicate" with
      | .error err => .error err
      | .ok pred =>
        match dget d "object" with
        | .error err => .error err
        | .ok dobj =>
          match pySubscript entity_map dobj with
          | .error err => .error err
          | .ok obj =>
            .ok [("subject", subj), ("predicate", .str pred),
                 ("object", obj)]

/-- The source's `entry_dict["delexicalized_mtriples"]` list
comprehension over the modified-triple dicts. -/
def build_delexicalized_mtriples (entity_map : PyVal)
    (mtriples : List (List (String × String))) :
    Except PyErr (List (List (String × PyVal))) :=
  match mtriples with
  | [] => .ok []
  | d :: rest =>
    match delex_one entity_map d with
    | .error err => .error err
    | .ok r =>
      match build_delexicalized_mtriples entity_map rest with
      | .error err => .error err
      | .ok rs => .ok (r :: rs)

/-!
## Lexicalization records

`Element.findtext(path, default)` of the Python standard library returns
`default` when no matching child element exists, and the element's text
(the empty string when the element has no text content) when it exists.
A child element is embedded as `Option (Option String)`: `none` when the
tag is absent, `some t` when it is present with optional text `t`.
-/

/-- Model of `xml.etree.ElementTree.Element.findtext`, from its documented
semantics: the default when the tag is absent, otherwise the tag's text
with `None` coerced to the empty string. -/
def findtext (child : Option (Option String)) (default : Option String) :
    Option String :=
  match child with
  | none => default
  | some t => some (t.getD "")

/-- A `lex` XML node as the v1.2 branch of `read_webnlg_file` reads it:
optional `text` and `template` child tags, plus `comment` and `lid`
attributes. -/
structure LexNode where
  text_tag : Option (Option String)
  template_tag : Option (Option String)
  comment : String
  lid : String
  deriving DecidableEq, Repr

/-- A `lex` XML node as the plain branch reads it: the node's own text
plus `comment` and `lid` attributes. -/
structure PlainLexNode where
  text : Option String
  comment : String
  lid : String
  deriving DecidableEq, Repr

/-- The v1.2 lexicalization dict literal of `read_webnlg_file`:
`{'text': e.findtext('text'), 'template': e.findtext('template',
'NOT-FOUND'), 'comment': e.attrib['comment'], 'lid': e.attrib['lid']}`. -/
def make_lex_v12 (e : LexNode) : List (String × Option String) :=
  [("text", findtext e.text_tag none),
   ("template", findtext e.template_tag (some "NOT-FOUND")),
   ("comment", some e.comment),
   ("lid", some e.lid)]

/-- The plain-schema lexicalization dict literal of `read_webnlg_file`:
`{'text': e.text, 'comment': e.attrib['comment'],
'lid': e.attrib['lid']}` — no `template` key. -/
def make_lex_plain (e : PlainLexNode) : List (String × Option String) :=
  [("text", e.text), ("comment", some e.comment), ("lid", some e.lid)]

/-!
## Entries, the document store and the corpus view

An `Entry` is the record `read_webnlg_file` builds (the fields every
schema version has; the v1.2-only fields cannot be populated, see the
delexicalization theorems).  The TinyDB in-memory store is an ordered
list of records; `search` is a linear scan preserving store order.
-/

/-- An entry record of the document store, with triple and
lexicalization dicts embedded as association lists. -/
structure Entry where
  dataset : String
  idx : String
  category : String
  eid : String
  ntriples : Int
  content : String
  otriples : List (List (String × String))
  mtriples : List (List (String × String))
  lexes : List (List (String × Option String))
  deriving DecidableEq, Repr

/-- One row of the entries table built by `as_pandas`. -/
structure EntryRow where
  idx : String
  dataset : String
  category : String
  eid : String
  ntriples : Int
  content : String
  deriving DecidableEq, Repr

/-- The `PANDAS_CONTAINER` namedtuple: the four projected tables, as
lists of rows (a pandas `DataFrame` is its ordered list of rows for the
purposes of the claims). -/
structure PANDAS_CONTAINER where
  edf : List EntryRow
  odf : List (List (String × String))
  mdf : List (List (String × String))
  ldf : List (List (String × Option String))
  deriving DecidableEq, Repr

/-- `WebNLGCorpus`: a release identifier plus the backing TinyDB store.
The `pandasCache` field embeds the `_pandas` attribute that `as_pandas`
sets on first access (`none` = attribute absent, as after `__init__`). -/
structure WebNLGCorpus where
  release : String
  db : List Entry
  pandasCache : Option PANDAS_CONTAINER
  deriving DecidableEq, Repr

/-- Python truthiness of an optional string argument (`None` and `""`
are falsy). -/
def truthyStr (s : Option String) : Bool :=
  match s with
  | none => false
  | some v => !(v == "")

/-- Python truthiness of an optional list argument (`None` and `[]` are
falsy). -/
def truthyList {α : Type} (l : Option (List α)) : Bool :=
  match l with
  | none => false
  | some v => !v.isEmpty

/-- `functools.reduce(__and__, filters)` over TinyDB query objects,
embedded as predicates on entries: `reduce` with no initial value raises
`TypeError` on an empty iterable and otherwise left-folds `&`. -/
def reduceAnd (filters : List (Entry → Bool)) :
    Except PyErr (Entry → Bool) :=
  match filters with
  | [] => .error .typeError
  | f :: fs => .ok (fs.foldl (fun acc g => fun e => acc e && g e) f)

/-- `WebNLGCorpus.subset`: raises `ValueError` (`NoFilterSpecified`)
when all three arguments are `None`; otherwise builds the truthy
clauses, searches with their conjunction and wraps the matches in a
fresh corpus over a fresh store (no pandas cache). -/
def WebNLGCorpus.subset (c : WebNLGCorpus) (ntriples : Option (List Int))
    (categories : Option (List String)) (datasets : Option (List String)) :
    Except PyErr WebNLGCorpus :=
  if ntriples.isNone && categories.isNone && datasets.isNone then
    .error (.valueError "At least one filter must be informed.")
  else
    let f1 : List (Entry → Bool) :=
      if truthyList ntriples then
        [fun e => (ntriples.getD []).contains e.ntriples] else []
    let f2 : List (Entry → Bool) :=
      if truthyList categories then
        [fun e => (categories.getD []).contains e.category] else []
    let f3 : List (Entry → Bool) :=
      if truthyList datasets then
        [fun e => (datasets.getD []).contains e.dataset] else []
    let filters : List (Entry → Bool) := f1 ++ f2 ++ f3
    match reduceAnd filters with
    | .error err => .error err
    | .ok pred => .ok ⟨c.release, c.db.filter pred, none⟩

/-- The selector and seed arguments of `WebNLGCorpus.sample`, each
defaulting to `None`. -/
structure SampleArgs where
  eid : Option String
  categories : Option (List String)
  ntriples : Option (List Int)
  idx : Option String
  seed : Option Int
  datasets : Option (List String)
  deriving DecidableEq, Repr

/-- The condition of `sample`'s branch:
`if eid or categories or ntriples or idx or datasets`. -/
def sampleTruthy (a : SampleArgs) : Bool :=
  truthyStr a.eid || truthyList a.categories || truthyList a.ntriples ||
    truthyStr a.idx || truthyList a.datasets

/-- The clause list `sample` builds inside the filtered branch, in source
order: `idx`, `eid`, `categories`, `ntriples`, `datasets`, each appended
only when truthy. -/
def sampleFilters (a : SampleArgs) : List (Entry → Bool) :=
  let f1 : List (Entry → Bool) :=
    if truthyStr a.idx then [fun e => e.idx == a.idx.getD ""] else []
  let f2 : List (Entry → Bool) :=
    if truthyStr a.eid then [fun e => e.eid == a.eid.getD ""] else []
  let f3 : List (Entry → Bool) :=
    if truthyList a.categories then
      [fun e => (a.categories.getD []).contains e.category] else []
  let f4 : List (Entry → Bool) :=
    if truthyList a.ntriples then
      [fun e => (a.ntriples.getD []).contains e.ntriples] else []
  let f5 : List (Entry → Bool) :=
    if truthyList a.datasets then
      [fun e => (a.datasets.getD []).contains e.dataset] else []
  f1 ++ f2 ++ f3 ++ f4 ++ f5

/-- Model of the index drawn by a fresh CPython `Random` seeded with
`seed` when asked to choose from a sequence of length `n`: the Mersenne
Twister is abstracted to a fixed deterministic function of the seed (the
claims rely only on determinism in the seed and on the result being a
valid index). -/
def mtDraw (seed : Int) (n : Nat) : Nat :=
  (seed.natAbs * 2654435761 + 1013904223) % n

/-- `random.Random.choice(xs)` for a generator freshly seeded with
`seed`: `IndexError` on an empty sequence (the spec's `EmptySelection`),
otherwise the element at the drawn index. -/
def pychoice {α : Type} (seed : Int) (xs : List α) : Except PyErr α :=
  match xs.get? (mtDraw seed xs.length) with
  | some x => .ok x
  | none => .error .indexError

/-- `WebNLGCorpus.sample`.  A fresh `Random` is created and seeded per
call; `Random.seed(None)` draws OS entropy, which the embedding makes an
explicit argument consumed only when `seed` is `None`.  With any truthy
selector the filtered branch searches with the conjunction of the truthy
clauses and chooses among the matches; otherwise it chooses from the
whole store. -/
def WebNLGCorpus.sample (c : WebNLGCorpus) (osEntropy : Int)
    (a : SampleArgs) : Except PyErr Entry :=
  let seedVal : Int := a.seed.getD osEntropy
  if sampleTruthy a then
    match reduceAnd (sampleFilters a) with
    | .error err => .error err
    | .ok pred => pychoice seedVal (c.db.filter pred)
  else
    pychoice seedVal c.db

/-!
## Tabular projection (`as_pandas`)
-/

/-- One row of the original- or modified-triples tables: the dict literal
`{'idx': ..., 'dataset': ..., 'category': ..., 'text': ot['text'],
'object': ot['object'], 'predicate': ot['predicate'],
'subject': ot['subject']}`, whose triple-dict subscripts can raise
`KeyError` when the triple text had fewer than three parts. -/
def triple_row (e : Entry) (ot : List (String × String)) :
    Except PyErr (List (String × String)) :=
  match dget ot "text" with
  | .error err => .error err
  | .ok t =>
    match dget ot "object" with
    | .error err => .error err
    | .ok o =>
      match dget ot "predicate" with
      | .error err => .error err
      | .ok p =>
        match dget ot "subject" with
        | .error err => .error err
        | .ok s =>
          .ok [("idx", e.idx), ("dataset", e.dataset),
               ("category", e.category), ("text", t), ("object", o),
               ("predicate", p), ("subject", s)]

/-- One row of the lexicalizations table: `{'idx': ..., 'dataset': ...,
'category': ..., 'text': l['text'], 'comment': l['comment'],
'lid': l['lid']}`. -/
def lex_row (e : Entry) (l : List (String × Option String)) :
    Except PyErr (List (String × Option String)) :=
  match dgetO l "text" with
  | .error err => .error err
  | .ok t =>
    match dgetO l "comment" with
    | .error err => .error err
    | .ok cm =>
      match dgetO l "lid" with
      | .error err => .error err
      | .ok li =>
        .ok [("idx", some e.idx), ("dataset", some e.dataset),
             ("category", some e.category), ("text", t), ("comment", cm),
             ("lid", li)]

/-- The entries-table row for one entry. -/
def entry_row (e : Entry) : EntryRow :=
  ⟨e.idx, e.dataset, e.category, e.eid, e.ntriples, e.content⟩

/-- Fallible map over a list, short-circuiting on the first error (the
behaviour of a Python list comprehension whose body can raise). -/
def listMapE {α β : Type} (f : α → Except PyErr β) :
    List α → Except PyErr (List β)
  | [] => .ok []
  | x :: xs =>
    match f x with
    | .error err => .error err
    | .ok y =>
      match listMapE f xs with
      | .error err => .error err
      | .ok ys => .ok (y :: ys)

/-- The single scan of `as_pandas`: one pass over the store, extending
the four row lists per entry (otriples, then mtriples, then lexes). -/
def project_entries : List Entry → Except PyErr PANDAS_CONTAINER
  | [] => .ok ⟨[], [], [], []⟩
  | e :: rest =>
    match listMapE (triple_row e) e.otriples with
    | .error err => .error err
    | .ok orows =>
      match listMapE (triple_row e) e.mtriples with
      | .error err => .error err
      | .ok mrows =>
        match listMapE (lex_row e) e.lexes with
        | .error err => .error err
        | .ok lrows =>
          match project_entries rest with
          | .error err => .error err
          | .ok t =>
            .ok ⟨entry_row e :: t.edf, orows ++ t.odf, mrows ++ t.mdf,
                 lrows ++ t.ldf⟩

/-- The `as_pandas` property: returns the memoized `_pandas` container
when the attribute is set, otherwise scans the store once, builds the
four tables, stores them as a unit and returns them.  The returned
corpus is the post-call state of `self`. -/
def WebNLGCorpus.as_pandas (c : WebNLGCorpus) :
    Except PyErr (PANDAS_CONTAINER × WebNLGCorpus) :=
  match c.pandasCache with
  | some t => .ok (t, c)
  | none =>
    match project_entries c.db with
    | .error err => .error err
    | .ok t => .ok (t, ⟨c.release, c.db, some t⟩)

/-!
## Helper lemmas
-/

theorem listMapE_ok_length {α β : Type} (f : α → Except PyErr β) :
    ∀ (xs : List α) (ys : List β), listMapE f xs = .ok ys →
      ys.length = xs.length := by
  intro xs
  induction xs with
  | nil =>
    intro ys h
    simp [listMapE] at h
    subst h
    rfl
  | cons x xs ih =>
    intro ys h
    cases hfx : f x with
    | error err => simp [listMapE, hfx] at h
    | ok y =>
      cases hrec : listMapE f xs with
      | error err => simp [listMapE, hfx, hrec] at h
      | ok ys2 =>
        simp [listMapE, hfx, hrec] at h
        subst h
        simp [ih ys2 hrec]

theorem listMapE_ok_prop {α β : Type} (f : α → Except PyErr β)
    (P : β → Prop) (hf : ∀ x y, f x = .ok y → P y) :
    ∀ (xs : List α) (ys : List β), listMapE f xs = .ok ys →
      ∀ y ∈ ys, P y := by
  intro xs
  induction xs with
  | nil =>
    intro ys h
    simp [listMapE] at h
    subst h
    intro y hy
    exact absurd hy (List.not_mem_nil y)
  | cons x xs ih =>
    intro ys h
    cases hfx : f x with
    | error err => simp [listMapE, hfx] at h
    | ok y =>
      cases hrec : listMapE f xs with
      | error err => simp [listMapE, hfx, hrec] at h
      | ok ys2 =>
        simp [listMapE, hfx, hrec] at h
        intro z hz
        rw [← h] at hz
        rcases List.mem_cons.mp hz with hz1 | hz2
        · exact hz1 ▸ hf x y hfx
        · exact ih ys2 hrec z hz2

theorem triple_row_keys (e : Entry) (ot : List (String × String))
    (r : List (String × String)) (h : triple_row e ot = .ok r) :
    r.map Prod.fst =
      ["idx", "dataset", "category", "text", "object", "predicate",
       "subject"] := by
  cases h1 : dget ot "text" with
  | error err => simp [triple_row, h1] at h
  | ok t =>
    cases h2 : dget ot "object" with
    | error err => simp [triple_row, h1, h2] at h
    | ok o =>
      cases h3 : dget ot "predicate" with
      | error err => simp [triple_row, h1, h2, h3] at h
      | ok p =>
        cases h4 : dget ot "subject" with
        | error err => simp [triple_row, h1, h2, h3, h4] at h
        | ok s =>
          simp [triple_row, h1, h2, h3, h4] at h
          simp [← h]

theorem foldl_and_apply (f : Entry → Bool) (fs : List (Entry → Bool))
    (e : Entry) :
    (fs.foldl (fun acc g => fun x => acc x && g x) f) e =
      (f e && fs.all (fun g => g e)) := by
  induction fs generalizing f with
  | nil => simp
  | cons g gs ih =>
    simp only [List.foldl_cons, ih, List.all_cons, Bool.and_assoc]

theorem reduceAnd_ok_all (filters : List (Entry → Bool))
    (pred : Entry → Bool) (h : reduceAnd filters = .ok pred) (e : Entry) :
    pred e = filters.all (fun f => f e) := by
  cases filters with
  | nil => simp [reduceAnd] at h
  | cons f fs =>
    simp [reduceAnd] at h
    simp [← h, foldl_and_apply, List.all_cons]

theorem sampleFilters_ne_nil (a : SampleArgs)
    (h : sampleTruthy a = true) : sampleFilters a ≠ [] := by
  simp only [sampleTruthy, Bool.or_eq_true] at h
  intro hnil
  have hlen := congrArg List.length hnil
  simp only [sampleFilters, List.length_append, List.length_nil] at hlen
  rcases h with ⟨⟨⟨h | h⟩ | h⟩ | h⟩ | h <;> simp [h] at hlen

/-!
## Claims C1 and C2: delexicalization

`read_webnlg_file` builds `entry_dict["entity_map"]` with a *set*
comprehension over unevaluated generator objects (`make_dict_from_entity`
contains `yield`), then subscripts that set with a string on the next
line.  Subscripting a set raises `TypeError`, so for every v1.2 entry
with at least one modified triple the record construction fails with
`TypeError` — never producing `delexicalized_mtriples` and never reaching
a key lookup that could raise the `MissingKey`/`KeyError` the rest of the
code base (`WebNLGEntry.__init__` calls `entity_map.items()`) and the
spec expect of a dict-valued entity map.
-/

/-- Claim C1: the spec's own delexicalization example — entity map built
from `"ENTITY-1 | Paris"` and modified triple
`"ENTITY-1 | capitalOf | France"` — does not yield a first delexicalized
triple with subject `"Paris"`: the construction of
`delexicalized_mtriples` raises `TypeError`, because `entity_map` is a
set of generator objects, not a dict. -/
theorem claim_c1_delexicalization_type_error :
    build_delexicalized_mtriples (build_entity_map ["ENTITY-1 | Paris"])
      [make_dict_from_triple "ENTITY-1 | capitalOf | France"] =
    .error .typeError := by
  rfl

/-- Claim C2: with an entity map omitting the placeholder `"ENTITY-2"`
used by a modified triple, record construction fails — but with the same
`TypeError` as for a complete map, not with a `KeyError` (`MissingKey`):
the placeholder lookup is never reached. -/
theorem claim_c2_missing_key_type_error :
    build_delexicalized_mtriples (build_entity_map ["ENTITY-1 | Paris"])
      [make_dict_from_triple "ENTITY-2 | capitalOf | France"] =
      .error .typeError ∧
    PyErr.typeError ≠ PyErr.keyError "ENTITY-2" := by
  exact ⟨rfl, by decide⟩

/-!
## Claim C3: the template sentinel
-/

/-- Claim C3, counterexample: a v1.2 `lex` whose `template` tag is
present but empty gets `template = ""`, not the sentinel `"NOT-FOUND"` —
`findtext` only falls back to its default when the tag is absent. -/
theorem claim_c3_counterexample :
    (make_lex_v12 ⟨some (some "Paris is the capital of France."),
        some none, "good", "1"⟩).lookup "template" = some (some "") ∧
    (some (some "") : Option (Option String)) ≠
      some (some "NOT-FOUND") := by
  exact ⟨rfl, by decide⟩

/-- Claim C3 as amended: under the richer (v1.2) schema the `template`
field holds `"NOT-FOUND"` when the source `template` tag is absent, and
the tag's text (the empty string when the tag is present but empty)
otherwise; under the plain schema the lexicalization record has exactly
the keys `text`, `comment`, `lid` and no `template` key. -/
theorem claim_c3_template_sentinel :
    (∀ e : LexNode,
      (make_lex_v12 e).lookup "template" =
        some (some (match e.template_tag with
          | none => "NOT-FOUND"
          | some t => t.getD ""))) ∧
    (∀ e : PlainLexNode,
      (make_lex_plain e).map Prod.fst = ["text", "comment", "lid"] ∧
      (make_lex_plain e).lookup "template" = none) := by
  constructor
  · intro e
    obtain ⟨tt, tpl, cm, li⟩ := e
    cases tpl <;> rfl
  · intro e
    exact ⟨rfl, rfl⟩

/-!
## Claim C7: the triple builder
-/

/-- Claim C7: `make_dict_from_triple` keeps the raw string under `text`,
splits on `|`, trims, and assigns the first three parts to `subject`,
`predicate`, `object` in order; with fewer than three parts the
remaining keys are absent from the dict rather than empty or an error,
and parts beyond the third are dropped (the dict's keys are `text` plus
the first `min 3 (number of parts)` triple keys). -/
theorem claim_c7_triple_split (s : String) :
    ((make_dict_from_triple s).lookup "text" = some s) ∧
    ((make_dict_from_triple s).lookup "subject" =
      ((pySplitOnPipe s).get? 0).map pyStrip) ∧
    ((make_dict_from_triple s).lookup "predicate" =
      ((pySplitOnPipe s).get? 1).map pyStrip) ∧
    ((make_dict_from_triple s).lookup "object" =
      ((pySplitOnPipe s).get? 2).map pyStrip) ∧
    ((make_dict_from_triple s).map Prod.fst =
      "text" :: TRIPLE_KEYS.take (pySplitOnPipe s).length) := by
  rcases hp : pySplitOnPipe s with _ | ⟨a, _ | ⟨b, _ | ⟨c, rest⟩⟩⟩ <;>
    simp [make_dict_from_triple, TRIPLE_KEYS, hp, List.lookup]

/-!
## Claim C4: sampling determinism
-/

/-- Claim C4: `sample` creates and seeds a fresh random generator per
call, so with a seed supplied it is a deterministic function of the
seed, the selectors and the store contents: the result does not depend
on the ambient OS entropy (the only call input besides seed, selectors
and store), hence two calls with the same seed, selectors and store
return the same record. -/
theorem claim_c4_sample_deterministic (c : WebNLGCorpus) (a : SampleArgs)
    (s : Int) (entropy1 entropy2 : Int) :
    c.sample entropy1
      ⟨a.eid, a.categories, a.ntriples, a.idx, some s, a.datasets⟩ =
    c.sample entropy2
      ⟨a.eid, a.categories, a.ntriples, a.idx, some s, a.datasets⟩ := rfl

/-!
## Claim C5: the no-filter error
-/

/-- Claim C5: `subset` with no selector argument supplied raises
`ValueError` (the spec's `NoFilterSpecified`) and nothing else happens;
and the filtered branch of `sample` is never reached with zero clauses —
whenever its truthiness guard selects the filtered branch, at least one
clause has been appended (so the zero-clause error condition of the
claim never arises there). -/
theorem claim_c5_no_filter_specified :
    (∀ c : WebNLGCorpus,
      c.subset none none none =
        .error (.valueError "At least one filter must be informed.")) ∧
    (∀ a : SampleArgs, sampleTruthy a = true → sampleFilters a ≠ []) := by
  constructor
  · intro c
    rfl
  · exact sampleFilters_ne_nil

theorem claim_c5_no_filter_specified_witness :
    (WebNLGCorpus.subset ⟨"release_v2", [], none⟩ none none none =
      .error (.valueError "At least one filter must be informed.")) ∧
    sampleFilters ⟨some "Id21", none, none, none, none, none⟩ ≠ [] :=
  ⟨claim_c5_no_filter_specified.1 ⟨"release_v2", [], none⟩,
   claim_c5_no_filter_specified.2
     ⟨some "Id21", none, none, none, none, none⟩ (by decide)⟩

/-!
## Claim C6: empty selection
-/

/-- Claim C6: when at least one selector is truthy and the conjunction
of the supplied clauses matches no record of the store, `sample` fails
with the `IndexError` that `random.choice` raises on an empty sequence
(the spec's `EmptySelection`); no sentinel value is returned. -/
theorem claim_c6_empty_selection (c : WebNLGCorpus) (entropy : Int)
    (a : SampleArgs) (htruthy : sampleTruthy a = true)
    (hempty : c.db.filter
      (fun e => (sampleFilters a).all (fun f => f e)) = []) :
    c.sample entropy a = .error .indexError := by
  have hne := sampleFilters_ne_nil a htruthy
  cases hfs : sampleFilters a with
  | nil => exact absurd hfs hne
  | cons f fs =>
    have hred : reduceAnd (sampleFilters a) =
        .ok (fs.foldl (fun acc g => fun x => acc x && g x) f) := by
      rw [hfs]
      rfl
    have hpred : ∀ x, (fs.foldl (fun acc g => fun x => acc x && g x) f) x
        = (sampleFilters a).all (fun g => g x) := by
      intro x
      rw [foldl_and_apply, hfs, List.all_cons]
    have hfilter : c.db.filter
        (fs.foldl (fun acc g => fun x => acc x && g x) f) = [] := by
      rw [List.filter_congr (fun x _ => hpred x)]
      exact hempty
    simp only [WebNLGCorpus.sample, htruthy, if_true, hred]
    rw [hfilter]
    simp [pychoice, List.get?]

theorem claim_c6_empty_selection_witness :
    WebNLGCorpus.sample
      ⟨"rel", [⟨"d", "i", "Airport", "e", 1, "x", [], [], []⟩], none⟩ 0
      ⟨none, some ["NoSuchCategory"], none, none, some 42, none⟩ =
      .error .indexError :=
  claim_c6_empty_selection
    ⟨"rel", [⟨"d", "i", "Airport", "e", 1, "x", [], [], []⟩], none⟩ 0
    ⟨none, some ["NoSuchCategory"], none, none, some 42, none⟩
    (by decide) (by decide)

/-!
## Claim C8: tabular projection row counts
-/

theorem project_entries_ok (store : List Entry) (t : PANDAS_CONTAINER)
    (h : project_entries store = .ok t) :
    t.edf.length = store.length ∧
    t.odf.length = (store.map (fun e => e.otriples.length)).sum ∧
    t.mdf.length = (store.map (fun e => e.mtriples.length)).sum ∧
    t.ldf.length = (store.map (fun e => e.lexes.length)).sum ∧
    (∀ r ∈ t.odf, r.map Prod.fst =
      ["idx", "dataset", "category", "text", "object", "predicate",
       "subject"]) ∧
    (∀ r ∈ t.mdf, r.map Prod.fst =
      ["idx", "dataset", "category", "text", "object", "predicate",
       "subject"]) := by
  induction store generalizing t with
  | nil =>
    simp [project_entries] at h
    subst h
    simp
  | cons e rest ih =>
    cases h1 : listMapE (triple_row e) e.otriples with
    | error err => simp [project_entries, h1] at h
    | ok orows =>
      cases h2 : listMapE (triple_row e) e.mtriples with
      | error err => simp [project_entries, h1, h2] at h
      | ok mrows =>
        cases h3 : listMapE (lex_row e) e.lexes with
        | error err => simp [project_entries, h1, h2, h3] at h
        | ok lrows =>
          cases h4 : project_entries rest with
          | error err => simp [project_entries, h1, h2, h3, h4] at h
          | ok t4 =>
            simp [project_entries, h1, h2, h3, h4] at h
            subst h
            obtain ⟨l1, l2, l3, l4, k1, k2⟩ := ih t4 h4
            have lo := listMapE_ok_length (triple_row e) e.otriples orows h1
            have lm := listMapE_ok_length (triple_row e) e.mtriples mrows h2
            have ll := listMapE_ok_length (lex_row e) e.lexes lrows h3
            have ko := listMapE_ok_prop (triple_row e) _
              (fun ot r => triple_row_keys e ot r) e.otriples orows h1
            have km := listMapE_ok_prop (triple_row e) _
              (fun ot r => triple_row_keys e ot r) e.mtriples mrows h2
            refine ⟨?_, ?_, ?_, ?_, ?_, ?_⟩
            · simp [l1]
            · simp [List.length_append, lo, l2]
            · simp [List.length_append, lm, l3]
            · simp [List.length_append, ll, l4]
            · intro r hr
              rcases List.mem_append.mp hr with hr1 | hr2
              · exact ko r hr1
              · exact k1 r hr2
            · intro r hr
              rcases List.mem_append.mp hr with hr1 | hr2
              · exact km r hr1
              · exact k2 r hr2

/-- Claim C8: when the tabular projection of a store succeeds, the
original-triples table has one row per (entry, otriple) pair — its
length is the sum over the store of the otriple counts — with columns
`idx, dataset, category, text, object, predicate, subject` (the source's
dict-literal order), and the same row-count relation holds for the
modified-triples table over mtriples and the lexicalizations table over
lexes (and the entries table has one row per entry). -/
theorem claim_c8_projection_row_counts (release : String)
    (store : List Entry) (t : PANDAS_CONTAINER) (c2 : WebNLGCorpus)
    (h : WebNLGCorpus.as_pandas ⟨release, store, none⟩ = .ok (t, c2)) :
    t.edf.length = store.length ∧
    t.odf.length = (store.map (fun e => e.otriples.length)).sum ∧
    t.mdf.length = (store.map (fun e => e.mtriples.length)).sum ∧
    t.ldf.length = (store.map (fun e => e.lexes.length)).sum ∧
    (∀ r ∈ t.odf, r.map Prod.fst =
      ["idx", "dataset", "category", "text", "object", "predicate",
       "subject"]) ∧
    (∀ r ∈ t.mdf, r.map Prod.fst =
      ["idx", "dataset", "category", "text", "object", "predicate",
       "subject"]) := by
  have hproj : project_entries store = .ok t := by
    cases hp : project_entries store with
    | error err => simp [WebNLGCorpus.as_pandas, hp] at h
    | ok t0 =>
      simp [WebNLGCorpus.as_pandas, hp] at h
      rw [h.1]
  exact project_entries_ok store t hproj

/-- A one-entry store used to witness the projection claims. -/
def c8_store : List Entry :=
  [⟨"dataset1", "Id1_idx", "Airport", "Id1", 1, "xmlfragment",
    [make_dict_from_triple "A | B | C"],
    [make_dict_from_triple "D | E | F"],
    [[("text", some "hello"), ("comment", some "good"),
      ("lid", some "Id1")]]⟩]

/-- The tables `as_pandas` builds for `c8_store`. -/
def c8_tables : PANDAS_CONTAINER :=
  ⟨[⟨"Id1_idx", "dataset1", "Airport", "Id1", 1, "xmlfragment"⟩],
   [[("idx", "Id1_idx"), ("dataset", "dataset1"), ("category", "Airport"),
     ("text", "A | B | C"), ("object", "C"), ("predicate", "B"),
     ("subject", "A")]],
   [[("idx", "Id1_idx"), ("dataset", "dataset1"), ("category", "Airport"),
     ("text", "D | E | F"), ("object", "F"), ("predicate", "E"),
     ("subject", "D")]],
   [[("idx", some "Id1_idx"), ("dataset", some "dataset1"),
     ("category", some "Airport"), ("text", some "hello"),
     ("comment", some "good"), ("lid", some "Id1")]]⟩

theorem claim_c8_projection_row_counts_witness :
    c8_tables.edf.length = c8_store.length ∧
    c8_tables.odf.length =
      (c8_store.map (fun e => e.otriples.length)).sum ∧
    c8_tables.mdf.length =
      (c8_store.map (fun e => e.mtriples.length)).sum ∧
    c8_tables.ldf.length =
      (c8_store.map (fun e => e.lexes.length)).sum ∧
    (∀ r ∈ c8_tables.odf, r.map Prod.fst =
      ["idx", "dataset", "category", "text", "object", "predicate",
       "subject"]) ∧
    (∀ r ∈ c8_tables.mdf, r.map Prod.fst =
      ["idx", "dataset", "category", "text", "object", "predicate",
       "subject"]) :=
  claim_c8_projection_row_counts "rel" c8_store c8_tables
    ⟨"rel", c8_store, some c8_tables⟩ (by rfl)

/-!
## Claim C9: projection memoization
-/

/-- Claim C9: the four tables are computed in one scan on the first
`as_pandas` access and stored as a single unit on the view (the
post-call view keeps the same release and store and has the container
cached); every later access — including after the backing store is
mutated to an arbitrary `newDb` — returns the cached container
unchanged, without rescanning the store. -/
theorem claim_c9_projection_memoized (c c1 : WebNLGCorpus)
    (t : PANDAS_CONTAINER) (h : c.as_pandas = .ok (t, c1)) :
    c1.release = c.release ∧ c1.db = c.db ∧ c1.pandasCache = some t ∧
    ∀ newDb : List Entry,
      WebNLGCorpus.as_pandas ⟨c1.release, newDb, c1.pandasCache⟩ =
        .ok (t, ⟨c1.release, newDb, c1.pandasCache⟩) := by
  have hc : c1.release = c.release ∧ c1.db = c.db ∧
      c1.pandasCache = some t := by
    cases hcache : c.pandasCache with
    | some t0 =>
      simp [WebNLGCorpus.as_pandas, hcache] at h
      rw [← h.2, ← h.1]
      exact ⟨rfl, rfl, hcache⟩
    | none =>
      cases hp : project_entries c.db with
      | error err => simp [WebNLGCorpus.as_pandas, hcache, hp] at h
      | ok t0 =>
        simp [WebNLGCorpus.as_pandas, hcache, hp] at h
        rw [← h.2, ← h.1]
        exact ⟨rfl, rfl, rfl⟩
  obtain ⟨h1, h2, h3⟩ := hc
  refine ⟨h1, h2, h3, ?_⟩
  intro newDb
  rw [h3]
  rfl

theorem claim_c9_projection_memoized_witness :
    WebNLGCorpus.as_pandas
      ⟨"mem", [⟨"d", "i", "cat", "e", 1, "x", [], [], []⟩],
        some ⟨[], [], [], []⟩⟩ =
      .ok (⟨[], [], [], []⟩,
        ⟨"mem", [⟨"d", "i", "cat", "e", 1, "x", [], [], []⟩],
          some ⟨[], [], [], []⟩⟩) :=
  (claim_c9_projection_memoized ⟨"mem", [], none⟩
      ⟨"mem", [], some ⟨[], [], [], []⟩⟩ ⟨[], [], [], []⟩ (by rfl)).2.2.2
    [⟨"d", "i", "cat", "e", 1, "x", [], [], []⟩]

/-!
## Claim C10: falsy selectors take the unfiltered branch
-/

/-- Claim C10: `sample` branches on the *truthiness* of its selectors,
not on whether they were supplied; when every supplied selector is falsy
(`eid=""`, `categories=[]`, ...) the call behaves exactly like a call
with no selectors at all — it neither filters nor raises, and any record
it returns is drawn from the entire store. -/
theorem claim_c10_falsy_selectors_unfiltered (c : WebNLGCorpus)
    (entropy : Int) (a : SampleArgs) (h : sampleTruthy a = false) :
    (c.sample entropy a =
      c.sample entropy ⟨none, none, none, none, a.seed, none⟩) ∧
    (∀ x : Entry, c.sample entropy a = .ok x → x ∈ c.db) := by
  have hfalse2 : sampleTruthy
      (⟨none, none, none, none, a.seed, none⟩ : SampleArgs) = false := rfl
  constructor
  · simp [WebNLGCorpus.sample, h, hfalse2]
  · intro x hx
    simp only [WebNLGCorpus.sample, h, Bool.false_eq_true, if_false] at hx
    unfold pychoice at hx
    cases hg : c.db.get? (mtDraw (a.seed.getD entropy) c.db.length) with
    | none =>
      rw [hg] at hx
      simp at hx
    | some y =>
      rw [hg] at hx
      simp at hx
      rw [← hx]
      exact List.get?_mem hg

theorem claim_c10_falsy_selectors_unfiltered_witness :
    WebNLGCorpus.sample
      ⟨"rel", [⟨"d", "i", "cat", "e", 1, "x", [], [], []⟩], none⟩ 0
      ⟨some "", some [], some [], some "", some 7, some []⟩ =
    WebNLGCorpus.sample
      ⟨"rel", [⟨"d", "i", "cat", "e", 1, "x", [], [], []⟩], none⟩ 0
      ⟨none, none, none, none, some 7, none⟩ :=
  (claim_c10_falsy_selectors_unfiltered
    ⟨"rel", [⟨"d", "i", "cat", "e", 1, "x", [], [], []⟩], none⟩ 0
    ⟨some "", some [], some [], some "", some 7, some []⟩ (by decide)).1
